import Mathlib

/-!
Verification of the SynthoraAI Generation & Gallery State Manager.

This file shallowly embeds the two parallel generator components of the
repository — `TextGenerator` (src/src/components/AIStudio.tsx) and
`ImageGenerator` (src/unnamed/part_000) — and proves or refutes the frozen
claims about them.

Modelling conventions:
- React `useState` state becomes an explicit state record; a call to a
  setter becomes an event in a trace, and the resulting state is the fold
  of the trace over the starting state.  Statement order in the source is
  preserved as event order.
- The Supabase gateway (`supabase.functions.invoke`) is an oracle
  parameter: for a given request it either fails (the `error` field of the
  result is truthy, or the invocation itself rejects) with an optional
  message, or succeeds with the payload field (`data?.text` resp.
  `data?.imageUrl`) modelled as `Option String` (`none` when `data` is
  null or lacks the field).
- `Date.now()` is an `Int` parameter `now`.
- JavaScript string truthiness (`if (data?.text)`, `!prompt.trim()`,
  `error.message || fallback`) is modelled explicitly: a string is falsy
  exactly when it is empty.
- `localStorage` for one fixed key is an `Option` value; the
  "save whenever the list changes" `useEffect` is a function applied to
  the post-mutation list, mirroring that it runs after each state change.
-/

/-- Characters removed by JavaScript `String.prototype.trim` (the ones
relevant to prompts: space and the common ASCII whitespace escapes). -/
def isJsWhitespace (c : Char) : Bool :=
  c = ' ' || c = '\t' || c = '\n' || c = '\r' || c = '\x0b' || c = '\x0c'

/-- JavaScript `s.trim()`. -/
def jsTrim (s : String) : String :=
  String.mk (((s.data.dropWhile isJsWhitespace).reverse.dropWhile isJsWhitespace).reverse)

/-- Result of one `supabase.functions.invoke` call, normalised:
`failure msg` covers both a truthy `error` field (with `error.message`
when present) and a rejected invocation; `success payload` is a resolved
call with `payload` the value of `data?.text` / `data?.imageUrl`
(`none` when `data` is null or the field is absent). -/
inductive GatewayResult where
  | failure (msg : Option String)
  | success (payload : Option String)
deriving Repr, DecidableEq

/-- JavaScript `m || fallback` applied to an optional error message:
the fallback is used when the message is absent or empty. -/
def messageOr (m : Option String) (fallback : String) : String :=
  match m with
  | some s => if s = "" then fallback else s
  | none => fallback

/-- JS truthiness of `data?.text` / `data?.imageUrl`: truthy exactly when
the field is present and non-empty. -/
def usablePayload : Option String → Bool
  | some t => t ≠ ""
  | none => false

/-- `GeneratedText` record of `TextGenerator` (AIStudio.tsx lines 100-106). -/
structure GeneratedText where
  id : String
  content : String
  prompt : String
  type : String
  timestamp : Int
deriving Repr, DecidableEq

/-- The `useState` state of `TextGenerator` relevant to generation. -/
structure TextState where
  prompt : String
  type : String
  isGenerating : Bool
  texts : List GeneratedText
deriving Repr, DecidableEq

/-- One observable step of `generateText`: a state-setter call, the gateway
invocation, or a toast.  Toasts are identified by which `toast({...})`
call site in the source produced them. -/
inductive TextEvent where
  | setFlag (b : Bool)
  | gatewayCall (prompt ty : String)
  | toastValidation
  | toastSuccess
  | toastFailure (msg : String)
  | prependText (a : GeneratedText)
  | setPromptInput (p : String)
  | setTypeInput (t : String)
deriving Repr, DecidableEq

/-- Fallback description of the failure toast in `generateText`. -/
def textFallbackMessage : String := "Failed to generate text. Please try again."

/-- The new `GeneratedText` built on a usable gateway payload
(AIStudio.tsx lines 154-160): `id` and `timestamp` from `Date.now()`. -/
def mkGeneratedText (now : Int) (content prompt ty : String) : GeneratedText :=
  { id := toString now, content := content, prompt := prompt, type := ty, timestamp := now }

/-- Event trace of one call to `generateText` (AIStudio.tsx lines 135-178),
statement by statement: empty-after-trim prompt toasts and returns;
otherwise the flag is set, the gateway is invoked once with
`{ prompt, type }`, a thrown error is caught and toasted with
`error.message || fallback`, a usable payload prepends the new record,
toasts success and clears the prompt, an unusable payload does nothing,
and `finally` clears the flag. -/
def generateTextEvents (gw : String → String → GatewayResult) (now : Int)
    (s : TextState) : List TextEvent :=
  if jsTrim s.prompt = "" then
    [.toastValidation]
  else
    .setFlag true ::
    .gatewayCall s.prompt s.type ::
    ((match gw s.prompt s.type with
      | .failure m => [.toastFailure (messageOr m textFallbackMessage)]
      | .success payload =>
        if usablePayload payload then
          [.prependText (mkGeneratedText now (payload.getD "") s.prompt s.type),
           .toastSuccess, .setPromptInput ""]
        else []) ++ [.setFlag false])

/-- Effect of one `TextEvent` on the component state. -/
def applyTextEvent (s : TextState) : TextEvent → TextState
  | .setFlag b => { s with isGenerating := b }
  | .gatewayCall _ _ => s
  | .toastValidation => s
  | .toastSuccess => s
  | .toastFailure _ => s
  | .prependText a => { s with texts := a :: s.texts }
  | .setPromptInput p => { s with prompt := p }
  | .setTypeInput t => { s with type := t }

/-- Run a trace of events over a starting state. -/
def runTextEvents (s : TextState) (evs : List TextEvent) : TextState :=
  evs.foldl applyTextEvent s

/-- State after one call to `generateText`. -/
def generateText (gw : String → String → GatewayResult) (now : Int)
    (s : TextState) : TextState :=
  runTextEvents s (generateTextEvents gw now s)

/-- Event trace of `regenerateText` (AIStudio.tsx lines 205-209):
`setPrompt(text.prompt); setType(text.type); await generateText();`.
React `useState` setters do not change the values captured by the
current render's closure, so the `generateText()` on the next line still
reads the pre-regenerate `prompt` and `type`: its events are computed
from the original state `s`, while the two setter events only update the
state for subsequent renders. -/
def regenerateTextEvents (gw : String → String → GatewayResult) (now : Int)
    (a : GeneratedText) (s : TextState) : List TextEvent :=
  .setPromptInput a.prompt :: .setTypeInput a.type ::
    generateTextEvents gw now s

/-- State after one call to `regenerateText`. -/
def regenerateText (gw : String → String → GatewayResult) (now : Int)
    (a : GeneratedText) (s : TextState) : TextState :=
  runTextEvents s (regenerateTextEvents gw now a s)

/-- Gateway requests issued during a trace, in order. -/
def textCalls (evs : List TextEvent) : List (String × String) :=
  evs.filterMap fun e =>
    match e with
    | .gatewayCall p t => some (p, t)
    | _ => none

/-- Messages of the `Generation failed` toasts in a trace. -/
def textFailureToasts (evs : List TextEvent) : List String :=
  evs.filterMap fun e =>
    match e with
    | .toastFailure m => some m
    | _ => none

/-- Whether the `Prompt required` (validation) toast appears in a trace. -/
def textHasValidationToast (evs : List TextEvent) : Bool :=
  evs.any fun e =>
    match e with
    | .toastValidation => true
    | _ => false

/-- The `disabled` condition of the Generate Text button
(AIStudio.tsx line 328): `isGenerating || !prompt.trim()`. -/
def textGenerateDisabled (s : TextState) : Bool :=
  s.isGenerating || jsTrim s.prompt = ""

/-- `GeneratedImage` record of `ImageGenerator` (part_000 lines 11-16). -/
structure GeneratedImage where
  id : String
  url : String
  prompt : String
  timestamp : Int
deriving Repr, DecidableEq

/-- The `useState` state of `ImageGenerator` relevant to generation:
`imageLoading` is the lifecycle tracker's loading set, kept as a
duplicate-free list of ids. -/
structure ImageState where
  prompt : String
  isGenerating : Bool
  images : List GeneratedImage
  imageLoading : List String
deriving Repr, DecidableEq

/-- One observable step of `generateImage`. -/
inductive ImageEvent where
  | setFlag (b : Bool)
  | gatewayCall (prompt : String)
  | toastValidation
  | toastSuccess
  | toastFailure (msg : String)
  | prependImage (a : GeneratedImage)
  | markLoading (id : String)
  | setPromptInput (p : String)
deriving Repr, DecidableEq

/-- Fallback description of the failure toast in `generateImage`. -/
def imageFallbackMessage : String := "Failed to generate image. Please try again."

/-- The new `GeneratedImage` built on a usable gateway payload
(part_000 lines 67-72). -/
def mkGeneratedImage (now : Int) (url prompt : String) : GeneratedImage :=
  { id := toString now, url := url, prompt := prompt, timestamp := now }

/-- Event trace of one call to `generateImage` (part_000 lines 48-91),
statement by statement; the same shape as `generateTextEvents` except the
request body is `{ prompt }` alone and a successful generation also adds
the new id to the `imageLoading` set. -/
def generateImageEvents (gw : String → GatewayResult) (now : Int)
    (s : ImageState) : List ImageEvent :=
  if jsTrim s.prompt = "" then
    [.toastValidation]
  else
    .setFlag true ::
    .gatewayCall s.prompt ::
    ((match gw s.prompt with
      | .failure m => [.toastFailure (messageOr m imageFallbackMessage)]
      | .success payload =>
        if usablePayload payload then
          [.prependImage (mkGeneratedImage now (payload.getD "") s.prompt),
           .markLoading (toString now), .toastSuccess, .setPromptInput ""]
        else []) ++ [.setFlag false])

/-- Effect of one `ImageEvent` on the component state: `markLoading`
mirrors `new Set(prev).add(id)`. -/
def applyImageEvent (s : ImageState) : ImageEvent → ImageState
  | .setFlag b => { s with isGenerating := b }
  | .gatewayCall _ => s
  | .toastValidation => s
  | .toastSuccess => s
  | .toastFailure _ => s
  | .prependImage a => { s with images := a :: s.images }
  | .markLoading i =>
      { s with imageLoading :=
          if i ∈ s.imageLoading then s.imageLoading else i :: s.imageLoading }
  | .setPromptInput p => { s with prompt := p }

/-- Run a trace of image events over a starting state. -/
def runImageEvents (s : ImageState) (evs : List ImageEvent) : ImageState :=
  evs.foldl applyImageEvent s

/-- State after one call to `generateImage`. -/
def generateImage (gw : String → GatewayResult) (now : Int)
    (s : ImageState) : ImageState :=
  runImageEvents s (generateImageEvents gw now s)

/-- Event trace of `regenerateImage` (part_000 lines 151-154):
`setPrompt(image.prompt); await generateImage();`.  As with
`regenerateTextEvents`, the React setter does not update the current
render's closure, so `generateImage()` still reads the pre-regenerate
prompt: its events are computed from the original state `s`, while the
setter event only updates the state for subsequent renders. -/
def regenerateImageEvents (gw : String → GatewayResult) (now : Int)
    (a : GeneratedImage) (s : ImageState) : List ImageEvent :=
  .setPromptInput a.prompt ::
    generateImageEvents gw now s

/-- State after one call to `regenerateImage`. -/
def regenerateImage (gw : String → GatewayResult) (now : Int)
    (a : GeneratedImage) (s : ImageState) : ImageState :=
  runImageEvents s (regenerateImageEvents gw now a s)

/-- Gateway requests issued during an image trace, in order. -/
def imageCalls (evs : List ImageEvent) : List String :=
  evs.filterMap fun e =>
    match e with
    | .gatewayCall p => some p
    | _ => none

/-- Messages of the `Generation failed` toasts in an image trace. -/
def imageFailureToasts (evs : List ImageEvent) : List String :=
  evs.filterMap fun e =>
    match e with
    | .toastFailure m => some m
    | _ => none

/-- Whether the `Prompt required` (validation) toast appears. -/
def imageHasValidationToast (evs : List ImageEvent) : Bool :=
  evs.any fun e =>
    match e with
    | .toastValidation => true
    | _ => false

/-- The `disabled` condition of the Generate Image button
(part_000 line 211): `isGenerating || !prompt.trim()`. -/
def imageGenerateDisabled (s : ImageState) : Bool :=
  s.isGenerating || jsTrim s.prompt = ""

/-- JavaScript `s.slice(0, n)`. -/
def jsSlice (s : String) (n : Nat) : String :=
  String.mk (s.data.take n)

/-- The character class `[a-z0-9]` with the `i` flag:
ASCII letters (either case) and digits. -/
def isAsciiAlphanum (c : Char) : Bool :=
  c.isAlpha || c.isDigit

/-- JavaScript `s.replace(/[^a-z0-9]/gi, '-')`: every character outside
the class is replaced by one `-` each. -/
def jsReplaceNonAlphanum (s : String) : String :=
  String.mk (s.data.map fun c => if isAsciiAlphanum c then c else '-')

/-- JavaScript `s.toLowerCase()` on the characters in play (ASCII). -/
def jsToLowerCase (s : String) : String :=
  String.mk (s.data.map Char.toLower)

/-- The `sanitizedPrompt` expression of `exportText` (AIStudio.tsx
line 193) and `downloadImage` (part_000 line 101):
`prompt.slice(0, 50).replace(/[^a-z0-9]/gi, '-').toLowerCase()`. -/
def sanitizedPrompt (p : String) : String :=
  jsToLowerCase (jsReplaceNonAlphanum (jsSlice p 50))

/-- Full download filename built by `exportText`
(AIStudio.tsx line 194). -/
def exportTextFileName (p : String) (now : Int) : String :=
  "ai-generated-" ++ sanitizedPrompt p ++ "-" ++ toString now ++ ".txt"

/-- The sanitization rule as the spec words it for the scenario: truncate
to 50 characters, then map runs of non-alphanumeric characters to a
single separator, drop leading/trailing separators, and lowercase.  Used
only to compare against `sanitizedPrompt`. -/
def specSanitizeCollapsed (p : String) : String :=
  String.intercalate "-"
    ((((p.data.take 50).map Char.toLower).splitOnP
        (fun c => !isAsciiAlphanum c)).filter (fun w => w ≠ []) |>.map String.mk)

/-- The per-character reading of the sanitization rule: truncate to 50
characters, replace each non-alphanumeric character by one separator,
lowercase.  This is what the code implements. -/
def specSanitizePerChar (p : String) : String :=
  String.mk ((p.data.take 50).map fun c =>
    if isAsciiAlphanum c then c.toLower else '-')

/-- A JSON value, as produced by a successful `JSON.parse`. -/
inductive JsValue where
  | null
  | bool (b : Bool)
  | num (n : Int)
  | str (s : String)
  | arr (xs : List JsValue)
  | obj (fields : List (String × JsValue))

/-- The load-on-mount effect shared by `TextGenerator` (AIStudio.tsx
lines 116-126) and `ImageGenerator` (part_000 lines 29-39): read the
stored string (if any), `JSON.parse` it inside `try`, pass the parsed
value to the state setter, and swallow a parse error in `catch` with only
a `console.error`.  `parse` is the `JSON.parse` oracle (`.error ()` when
it throws); the result is `.error ()` only if the effect itself would
throw to the caller, and carries the collection state after the effect. -/
def loadCollectionEffect (parse : String → Except Unit JsValue)
    (stored : Option String) (current : JsValue) : Except Unit JsValue :=
  match stored with
  | none => .ok current
  | some s =>
    match parse s with
    | .ok j => .ok j
    | .error _ => .ok current

/-- The initial collection state of either component: the empty array. -/
def emptyCollection : JsValue := .arr []

/-- Persist-on-change effect of `TextGenerator` (AIStudio.tsx lines
129-133): when the list is non-empty, overwrite the stored entry with
the serialized list; when it is empty, do nothing.  The store is the
value under the `ai-studio-texts` key, kept in deserialized form
(`none` = key absent). -/
def persistTexts (texts : List GeneratedText)
    (stored : Option (List GeneratedText)) : Option (List GeneratedText) :=
  if texts.length > 0 then some texts else stored

/-- Collection plus its persisted copy for `TextGenerator`. -/
structure TextPersistState where
  texts : List GeneratedText
  stored : Option (List GeneratedText)
deriving Repr, DecidableEq

/-- `deleteText id` (AIStudio.tsx lines 211-212) followed by the
persist-on-change effect: filter the list by id, then persist. -/
def deleteTextOp (id : String) (s : TextPersistState) : TextPersistState :=
  let texts := s.texts.filter fun t => t.id ≠ id
  { texts := texts, stored := persistTexts texts s.stored }

/-- The confirmed `Clear All` handler of `TextGenerator` (AIStudio.tsx
lines 356-364) followed by the persist-on-change effect:
`setTexts([])`, `localStorage.removeItem('ai-studio-texts')`, and then
the effect runs on the now-empty list. -/
def clearAllTexts (_s : TextPersistState) : TextPersistState :=
  let s1 : TextPersistState := { texts := [], stored := none }
  { s1 with stored := persistTexts s1.texts s1.stored }

/-- Session-start restore from a well-formed persisted entry:
absent yields the empty collection. -/
def loadTextsWellFormed (stored : Option (List GeneratedText)) :
    List GeneratedText :=
  stored.getD []

/-- Persist-on-change effect of `ImageGenerator` (part_000 lines 42-46). -/
def persistImages (images : List GeneratedImage)
    (stored : Option (List GeneratedImage)) : Option (List GeneratedImage) :=
  if images.length > 0 then some images else stored

/-- Collection plus its persisted copy for `ImageGenerator`. -/
structure ImagePersistState where
  images : List GeneratedImage
  stored : Option (List GeneratedImage)
deriving Repr, DecidableEq

/-- The confirmed `Clear All` handler of `ImageGenerator` (part_000
lines 239-247) followed by the persist-on-change effect. -/
def clearAllImages (_s : ImagePersistState) : ImagePersistState :=
  let s1 : ImagePersistState := { images := [], stored := none }
  { s1 with stored := persistImages s1.images s1.stored }

/-! ### Characterization lemmas for one `generateText` call -/

theorem generateTextEvents_blank (gw : String → String → GatewayResult)
    (now : Int) (s : TextState) (h : jsTrim s.prompt = "") :
    generateTextEvents gw now s = [.toastValidation] := by
  simp [generateTextEvents, h]

theorem generateTextEvents_failure (gw : String → String → GatewayResult)
    (now : Int) (s : TextState) (m : Option String)
    (h : jsTrim s.prompt ≠ "") (hgw : gw s.prompt s.type = .failure m) :
    generateTextEvents gw now s =
      [.setFlag true, .gatewayCall s.prompt s.type,
       .toastFailure (messageOr m textFallbackMessage), .setFlag false] := by
  simp [generateTextEvents, h, hgw]

theorem generateTextEvents_success (gw : String → String → GatewayResult)
    (now : Int) (s : TextState) (t : String)
    (h : jsTrim s.prompt ≠ "") (hgw : gw s.prompt s.type = .success (some t))
    (ht : t ≠ "") :
    generateTextEvents gw now s =
      [.setFlag true, .gatewayCall s.prompt s.type,
       .prependText (mkGeneratedText now t s.prompt s.type),
       .toastSuccess, .setPromptInput "", .setFlag false] := by
  simp [generateTextEvents, h, hgw, usablePayload, ht]

theorem generateTextEvents_unusable (gw : String → String → GatewayResult)
    (now : Int) (s : TextState) (p : Option String)
    (h : jsTrim s.prompt ≠ "") (hgw : gw s.prompt s.type = .success p)
    (hp : usablePayload p = false) :
    generateTextEvents gw now s =
      [.setFlag true, .gatewayCall s.prompt s.type, .setFlag false] := by
  simp [generateTextEvents, h, hgw, hp]

theorem generateText_blank (gw : String → String → GatewayResult)
    (now : Int) (s : TextState) (h : jsTrim s.prompt = "") :
    generateText gw now s = s := by
  simp [generateText, generateTextEvents_blank gw now s h,
    runTextEvents, applyTextEvent]

theorem generateText_failure (gw : String → String → GatewayResult)
    (now : Int) (s : TextState) (m : Option String)
    (h : jsTrim s.prompt ≠ "") (hgw : gw s.prompt s.type = .failure m) :
    generateText gw now s = { s with isGenerating := false } := by
  simp [generateText, generateTextEvents_failure gw now s m h hgw,
    runTextEvents, applyTextEvent]

theorem generateText_success (gw : String → String → GatewayResult)
    (now : Int) (s : TextState) (t : String)
    (h : jsTrim s.prompt ≠ "") (hgw : gw s.prompt s.type = .success (some t))
    (ht : t ≠ "") :
    generateText gw now s =
      { prompt := "", type := s.type, isGenerating := false,
        texts := mkGeneratedText now t s.prompt s.type :: s.texts } := by
  simp [generateText, generateTextEvents_success gw now s t h hgw ht,
    runTextEvents, applyTextEvent]

theorem generateText_unusable (gw : String → String → GatewayResult)
    (now : Int) (s : TextState) (p : Option String)
    (h : jsTrim s.prompt ≠ "") (hgw : gw s.prompt s.type = .success p)
    (hp : usablePayload p = false) :
    generateText gw now s = { s with isGenerating := false } := by
  simp [generateText, generateTextEvents_unusable gw now s p h hgw hp,
    runTextEvents, applyTextEvent]

/-! ### Characterization lemmas for one `generateImage` call -/

theorem generateImageEvents_blank (gw : String → GatewayResult)
    (now : Int) (s : ImageState) (h : jsTrim s.prompt = "") :
    generateImageEvents gw now s = [.toastValidation] := by
  simp [generateImageEvents, h]

theorem generateImageEvents_failure (gw : String → GatewayResult)
    (now : Int) (s : ImageState) (m : Option String)
    (h : jsTrim s.prompt ≠ "") (hgw : gw s.prompt = .failure m) :
    generateImageEvents gw now s =
      [.setFlag true, .gatewayCall s.prompt,
       .toastFailure (messageOr m imageFallbackMessage), .setFlag false] := by
  simp [generateImageEvents, h, hgw]

theorem generateImageEvents_success (gw : String → GatewayResult)
    (now : Int) (s : ImageState) (u : String)
    (h : jsTrim s.prompt ≠ "") (hgw : gw s.prompt = .success (some u))
    (hu : u ≠ "") :
    generateImageEvents gw now s =
      [.setFlag true, .gatewayCall s.prompt,
       .prependImage (mkGeneratedImage now u s.prompt),
       .markLoading (toString now), .toastSuccess, .setPromptInput "",
       .setFlag false] := by
  simp [generateImageEvents, h, hgw, usablePayload, hu]

theorem generateImageEvents_unusable (gw : String → GatewayResult)
    (now : Int) (s : ImageState) (p : Option String)
    (h : jsTrim s.prompt ≠ "") (hgw : gw s.prompt = .success p)
    (hp : usablePayload p = false) :
    generateImageEvents gw now s =
      [.setFlag true, .gatewayCall s.prompt, .setFlag false] := by
  simp [generateImageEvents, h, hgw, hp]

theorem generateImage_blank (gw : String → GatewayResult)
    (now : Int) (s : ImageState) (h : jsTrim s.prompt = "") :
    generateImage gw now s = s := by
  simp [generateImage, generateImageEvents_blank gw now s h,
    runImageEvents, applyImageEvent]

theorem generateImage_failure (gw : String → GatewayResult)
    (now : Int) (s : ImageState) (m : Option String)
    (h : jsTrim s.prompt ≠ "") (hgw : gw s.prompt = .failure m) :
    generateImage gw now s = { s with isGenerating := false } := by
  simp [generateImage, generateImageEvents_failure gw now s m h hgw,
    runImageEvents, applyImageEvent]

theorem generateImage_success (gw : String → GatewayResult)
    (now : Int) (s : ImageState) (u : String)
    (h : jsTrim s.prompt ≠ "") (hgw : gw s.prompt = .success (some u))
    (hu : u ≠ "") :
    generateImage gw now s =
      { prompt := "", isGenerating := false,
        images := mkGeneratedImage now u s.prompt :: s.images,
        imageLoading :=
          if toString now ∈ s.imageLoading then s.imageLoading
          else toString now :: s.imageLoading } := by
  simp [generateImage, generateImageEvents_success gw now s u h hgw hu,
    runImageEvents, applyImageEvent]

theorem generateImage_unusable (gw : String → GatewayResult)
    (now : Int) (s : ImageState) (p : Option String)
    (h : jsTrim s.prompt ≠ "") (hgw : gw s.prompt = .success p)
    (hp : usablePayload p = false) :
    generateImage gw now s = { s with isGenerating := false } := by
  simp [generateImage, generateImageEvents_unusable gw now s p h hgw hp,
    runImageEvents, applyImageEvent]

/-! ### Calls, toasts and flag behaviour of a single call -/

theorem textCalls_generate (gw : String → String → GatewayResult)
    (now : Int) (s : TextState) :
    textCalls (generateTextEvents gw now s) =
      if jsTrim s.prompt = "" then [] else [(s.prompt, s.type)] := by
  by_cases h : jsTrim s.prompt = ""
  · simp [generateTextEvents_blank gw now s h, textCalls, h]
  · rcases hgw : gw s.prompt s.type with m | p
    · simp [generateTextEvents_failure gw now s m h hgw, textCalls, h]
    · rcases p with _ | t
      · simp [generateTextEvents_unusable gw now s none h hgw rfl, textCalls, h]
      · by_cases ht : t = ""
        · subst ht
          simp [generateTextEvents_unusable gw now s (some "") h hgw (by decide),
            textCalls, h]
        · simp [generateTextEvents_success gw now s t h hgw ht, textCalls, h]

theorem imageCalls_generate (gw : String → GatewayResult)
    (now : Int) (s : ImageState) :
    imageCalls (generateImageEvents gw now s) =
      if jsTrim s.prompt = "" then [] else [s.prompt] := by
  by_cases h : jsTrim s.prompt = ""
  · simp [generateImageEvents_blank gw now s h, imageCalls, h]
  · rcases hgw : gw s.prompt with m | p
    · simp [generateImageEvents_failure gw now s m h hgw, imageCalls, h]
    · rcases p with _ | u
      · simp [generateImageEvents_unusable gw now s none h hgw rfl, imageCalls, h]
      · by_cases hu : u = ""
        · subst hu
          simp [generateImageEvents_unusable gw now s (some "") h hgw (by decide),
            imageCalls, h]
        · simp [generateImageEvents_success gw now s u h hgw hu, imageCalls, h]

theorem textFailureToasts_generate (gw : String → String → GatewayResult)
    (now : Int) (s : TextState) (h : jsTrim s.prompt ≠ "") :
    textFailureToasts (generateTextEvents gw now s) =
      match gw s.prompt s.type with
      | .failure m => [messageOr m textFallbackMessage]
      | .success _ => [] := by
  rcases hgw : gw s.prompt s.type with m | p
  · simp [generateTextEvents_failure gw now s m h hgw, textFailureToasts]
  · rcases p with _ | t
    · simp [generateTextEvents_unusable gw now s none h hgw rfl, textFailureToasts]
    · by_cases ht : t = ""
      · subst ht
        simp [generateTextEvents_unusable gw now s (some "") h hgw (by decide),
          textFailureToasts]
      · simp [generateTextEvents_success gw now s t h hgw ht, textFailureToasts]

theorem imageFailureToasts_generate (gw : String → GatewayResult)
    (now : Int) (s : ImageState) (h : jsTrim s.prompt ≠ "") :
    imageFailureToasts (generateImageEvents gw now s) =
      match gw s.prompt with
      | .failure m => [messageOr m imageFallbackMessage]
      | .success _ => [] := by
  rcases hgw : gw s.prompt with m | p
  · simp [generateImageEvents_failure gw now s m h hgw, imageFailureToasts]
  · rcases p with _ | u
    · simp [generateImageEvents_unusable gw now s none h hgw rfl, imageFailureToasts]
    · by_cases hu : u = ""
      · subst hu
        simp [generateImageEvents_unusable gw now s (some "") h hgw (by decide),
          imageFailureToasts]
      · simp [generateImageEvents_success gw now s u h hgw hu, imageFailureToasts]

theorem generateText_flag_cleared (gw : String → String → GatewayResult)
    (now : Int) (s : TextState) (h : jsTrim s.prompt ≠ "") :
    (generateText gw now s).isGenerating = false := by
  rcases hgw : gw s.prompt s.type with m | p
  · simp [generateText_failure gw now s m h hgw]
  · rcases p with _ | t
    · simp [generateText_unusable gw now s none h hgw rfl]
    · by_cases ht : t = ""
      · subst ht
        simp [generateText_unusable gw now s (some "") h hgw (by decide)]
      · simp [generateText_success gw now s t h hgw ht]

theorem generateImage_flag_cleared (gw : String → GatewayResult)
    (now : Int) (s : ImageState) (h : jsTrim s.prompt ≠ "") :
    (generateImage gw now s).isGenerating = false := by
  rcases hgw : gw s.prompt with m | p
  · simp [generateImage_failure gw now s m h hgw]
  · rcases p with _ | u
    · simp [generateImage_unusable gw now s none h hgw rfl]
    · by_cases hu : u = ""
      · subst hu
        simp [generateImage_unusable gw now s (some "") h hgw (by decide)]
      · simp [generateImage_success gw now s u h hgw hu]

theorem generateTextEvents_shape (gw : String → String → GatewayResult)
    (now : Int) (s : TextState) (h : jsTrim s.prompt ≠ "") :
    ∃ mid, generateTextEvents gw now s =
      .setFlag true :: .gatewayCall s.prompt s.type :: mid ++ [.setFlag false] := by
  rcases hgw : gw s.prompt s.type with m | p
  · exact ⟨[.toastFailure (messageOr m textFallbackMessage)],
      by simp [generateTextEvents_failure gw now s m h hgw]⟩
  · rcases p with _ | t
    · exact ⟨[], by simp [generateTextEvents_unusable gw now s none h hgw rfl]⟩
    · by_cases ht : t = ""
      · subst ht
        exact ⟨[], by
          simp [generateTextEvents_unusable gw now s (some "") h hgw (by decide)]⟩
      · exact ⟨[.prependText (mkGeneratedText now t s.prompt s.type),
          .toastSuccess, .setPromptInput ""],
          by simp [generateTextEvents_success gw now s t h hgw ht]⟩

theorem generateImageEvents_shape (gw : String → GatewayResult)
    (now : Int) (s : ImageState) (h : jsTrim s.prompt ≠ "") :
    ∃ mid, generateImageEvents gw now s =
      .setFlag true :: .gatewayCall s.prompt :: mid ++ [.setFlag false] := by
  rcases hgw : gw s.prompt with m | p
  · exact ⟨[.toastFailure (messageOr m imageFallbackMessage)],
      by simp [generateImageEvents_failure gw now s m h hgw]⟩
  · rcases p with _ | u
    · exact ⟨[], by simp [generateImageEvents_unusable gw now s none h hgw rfl]⟩
    · by_cases hu : u = ""
      · subst hu
        exact ⟨[], by
          simp [generateImageEvents_unusable gw now s (some "") h hgw (by decide)]⟩
      · exact ⟨[.prependImage (mkGeneratedImage now u s.prompt),
          .markLoading (toString now), .toastSuccess, .setPromptInput ""],
          by simp [generateImageEvents_success gw now s u h hgw hu]⟩

/-! ### Claims -/

/-- Claim C1: for every successful `generate` call (non-empty prompt after
trimming, gateway returns a usable payload) the new artifact — whose
`prompt` equals the submitted prompt — is prepended at index 0, the
collection grows by exactly one, no existing artifact is removed or
altered (the tail of the new collection is exactly the old collection),
and the prompt input state is cleared; for both `generateText` and
`generateImage`. -/
theorem claim_c1_generate_success_prepends
    (gwT : String → String → GatewayResult) (gwI : String → GatewayResult)
    (now : Int) (sT : TextState) (sI : ImageState) (t u : String)
    (hT : jsTrim sT.prompt ≠ "")
    (hgwT : gwT sT.prompt sT.type = .success (some t)) (ht : t ≠ "")
    (hI : jsTrim sI.prompt ≠ "")
    (hgwI : gwI sI.prompt = .success (some u)) (hu : u ≠ "") :
    ((generateText gwT now sT).texts =
        mkGeneratedText now t sT.prompt sT.type :: sT.texts
      ∧ (mkGeneratedText now t sT.prompt sT.type).prompt = sT.prompt
      ∧ (generateText gwT now sT).texts.length = sT.texts.length + 1
      ∧ (generateText gwT now sT).prompt = "")
    ∧ ((generateImage gwI now sI).images =
        mkGeneratedImage now u sI.prompt :: sI.images
      ∧ (mkGeneratedImage now u sI.prompt).prompt = sI.prompt
      ∧ (generateImage gwI now sI).images.length = sI.images.length + 1
      ∧ (generateImage gwI now sI).prompt = "") := by
  rw [generateText_success gwT now sT t hT hgwT ht,
    generateImage_success gwI now sI u hI hgwI hu]
  simp [mkGeneratedText, mkGeneratedImage]

/-- Witness for C1 at a concrete successful generation. -/
theorem claim_c1_witness :
    (generateText (fun _ _ => GatewayResult.success (some "out")) 7
      ⟨"hi", "creative", false, []⟩).texts =
      [mkGeneratedText 7 "out" "hi" "creative"] :=
  (claim_c1_generate_success_prepends
    (fun _ _ => GatewayResult.success (some "out"))
    (fun _ => GatewayResult.success (some "https://x/1.png")) 7
    ⟨"hi", "creative", false, []⟩ ⟨"hi", false, [], []⟩ "out" "https://x/1.png"
    (by decide) rfl (by decide) (by decide) rfl (by decide)).1.1

/-- Claim C2: a prompt that is empty after trimming issues zero gateway
calls, surfaces the validation toast, and leaves the whole state — in
particular the collection — unchanged; a prompt that is non-empty after
trimming issues exactly one gateway call, carrying that prompt (and, for
text, the selected type); for both components. -/
theorem claim_c2_validation_gates_gateway
    (gwT : String → String → GatewayResult) (gwI : String → GatewayResult)
    (now : Int) (sT : TextState) (sI : ImageState) :
    (jsTrim sT.prompt = "" →
      textCalls (generateTextEvents gwT now sT) = []
      ∧ textHasValidationToast (generateTextEvents gwT now sT) = true
      ∧ generateText gwT now sT = sT)
    ∧ (jsTrim sT.prompt ≠ "" →
      textCalls (generateTextEvents gwT now sT) = [(sT.prompt, sT.type)])
    ∧ (jsTrim sI.prompt = "" →
      imageCalls (generateImageEvents gwI now sI) = []
      ∧ imageHasValidationToast (generateImageEvents gwI now sI) = true
      ∧ generateImage gwI now sI = sI)
    ∧ (jsTrim sI.prompt ≠ "" →
      imageCalls (generateImageEvents gwI now sI) = [sI.prompt]) := by
  refine ⟨fun h => ?_, fun h => ?_, fun h => ?_, fun h => ?_⟩
  · exact ⟨by simp [textCalls_generate, h],
      by simp [generateTextEvents_blank gwT now sT h, textHasValidationToast],
      generateText_blank gwT now sT h⟩
  · simp [textCalls_generate, h]
  · exact ⟨by simp [imageCalls_generate, h],
      by simp [generateImageEvents_blank gwI now sI h, imageHasValidationToast],
      generateImage_blank gwI now sI h⟩
  · simp [imageCalls_generate, h]

/-- Witness for C2: a whitespace-only prompt issues no call and is left
unchanged on the text side, a non-empty prompt issues one call on the
image side. -/
theorem claim_c2_witness :
    (textCalls (generateTextEvents (fun _ _ => GatewayResult.failure none) 7
        ⟨"  ", "creative", false, []⟩) = []
      ∧ textHasValidationToast (generateTextEvents
          (fun _ _ => GatewayResult.failure none) 7
          ⟨"  ", "creative", false, []⟩) = true
      ∧ generateText (fun _ _ => GatewayResult.failure none) 7
          ⟨"  ", "creative", false, []⟩ = ⟨"  ", "creative", false, []⟩)
    ∧ imageCalls (generateImageEvents (fun _ => GatewayResult.failure none) 7
        ⟨"hi", false, [], []⟩) = ["hi"] :=
  have h := claim_c2_validation_gates_gateway
    (fun _ _ => GatewayResult.failure none) (fun _ => GatewayResult.failure none)
    7 ⟨"  ", "creative", false, []⟩ ⟨"hi", false, [], []⟩
  ⟨h.1 (by decide), h.2.2.2 (by decide)⟩

/-- Claim C3 counterexample: with the Session Flag already set and a
non-empty prompt, a (second) call to `generateText` / `generateImage`
still issues a gateway invocation — the functions never consult
`isGenerating`, so the claim "a second call never produces a second
gateway invocation" is false at this input. -/
theorem claim_c3_counterexample :
    (⟨"hi", "creative", true, []⟩ : TextState).isGenerating = true
    ∧ textCalls (generateTextEvents
        (fun _ _ => GatewayResult.success (some "out")) 7
        ⟨"hi", "creative", true, []⟩) = [("hi", "creative")]
    ∧ (⟨"hi", true, [], []⟩ : ImageState).isGenerating = true
    ∧ imageCalls (generateImageEvents
        (fun _ => GatewayResult.success (some "https://x/1.png")) 7
        ⟨"hi", true, [], []⟩) = ["hi"] := by decide

/-- Claim C3 amended: `generateText` / `generateImage` do not consult the
Session Flag — a call while `isGenerating` is set issues exactly one
gateway invocation whenever the trimmed prompt is non-empty, and the
calls issued are independent of the flag.  Single-flight holds only at
the UI boundary: the generate trigger buttons are disabled whenever the
flag is set. -/
theorem claim_c3_amended_flag_not_consulted
    (gwT : String → String → GatewayResult) (gwI : String → GatewayResult)
    (now : Int) (sT : TextState) (sI : ImageState)
    (hT : jsTrim sT.prompt ≠ "") (hI : jsTrim sI.prompt ≠ "") :
    (sT.isGenerating = true → textGenerateDisabled sT = true)
    ∧ textCalls (generateTextEvents gwT now sT) = [(sT.prompt, sT.type)]
    ∧ textCalls (generateTextEvents gwT now sT) =
        textCalls (generateTextEvents gwT now { sT with isGenerating := false })
    ∧ (sI.isGenerating = true → imageGenerateDisabled sI = true)
    ∧ imageCalls (generateImageEvents gwI now sI) = [sI.prompt]
    ∧ imageCalls (generateImageEvents gwI now sI) =
        imageCalls (generateImageEvents gwI now { sI with isGenerating := false }) := by
  refine ⟨fun hf => ?_, ?_, ?_, fun hf => ?_, ?_, ?_⟩
  · simp [textGenerateDisabled, hf]
  · simp [textCalls_generate, hT]
  · simp [textCalls_generate, hT]
  · simp [imageGenerateDisabled, hf]
  · simp [imageCalls_generate, hI]
  · simp [imageCalls_generate, hI]

/-- Witness for the amended C3 at a flag-set state. -/
theorem claim_c3_amended_witness :
    textGenerateDisabled ⟨"hi", "creative", true, []⟩ = true
    ∧ textCalls (generateTextEvents
        (fun _ _ => GatewayResult.failure none) 7
        ⟨"hi", "creative", true, []⟩) = [("hi", "creative")] :=
  have h := claim_c3_amended_flag_not_consulted
    (fun _ _ => GatewayResult.failure none) (fun _ => GatewayResult.failure none)
    7 ⟨"hi", "creative", true, []⟩ ⟨"hi", true, [], []⟩ (by decide) (by decide)
  ⟨h.1 rfl, h.2.1⟩

/-- Claim C4: for every call with a prompt that is non-empty after
trimming, the Session Flag is set as the first action, the single gateway
call happens after it, the last action clears the flag on every exit path
(success, gateway failure, or unusable payload), and the state after the
call always has `isGenerating = false`; for both components. -/
theorem claim_c4_flag_set_and_cleared
    (gwT : String → String → GatewayResult) (gwI : String → GatewayResult)
    (now : Int) (sT : TextState) (sI : ImageState)
    (hT : jsTrim sT.prompt ≠ "") (hI : jsTrim sI.prompt ≠ "") :
    ((∃ mid, generateTextEvents gwT now sT =
        .setFlag true :: .gatewayCall sT.prompt sT.type :: mid ++ [.setFlag false])
      ∧ (generateText gwT now sT).isGenerating = false)
    ∧ ((∃ mid, generateImageEvents gwI now sI =
        .setFlag true :: .gatewayCall sI.prompt :: mid ++ [.setFlag false])
      ∧ (generateImage gwI now sI).isGenerating = false) :=
  ⟨⟨generateTextEvents_shape gwT now sT hT,
    generateText_flag_cleared gwT now sT hT⟩,
   ⟨generateImageEvents_shape gwI now sI hI,
    generateImage_flag_cleared gwI now sI hI⟩⟩

/-- Witness for C4 at a concrete failing gateway call. -/
theorem claim_c4_witness :
    (generateText (fun _ _ => GatewayResult.failure (some "boom")) 7
      ⟨"hi", "creative", true, []⟩).isGenerating = false :=
  (claim_c4_flag_set_and_cleared
    (fun _ _ => GatewayResult.failure (some "boom"))
    (fun _ => GatewayResult.failure (some "boom")) 7
    ⟨"hi", "creative", true, []⟩ ⟨"hi", true, [], []⟩
    (by decide) (by decide)).1.2

/-- Claim C5 counterexample: the gateway call resolves without error but
returns no usable payload (`data` null / missing field), yet no
`Generation failed` toast is surfaced — the "if and only if" of the claim
fails in the no-usable-payload direction. -/
theorem claim_c5_counterexample :
    textCalls (generateTextEvents (fun _ _ => GatewayResult.success none) 7
      ⟨"hi", "creative", false, []⟩) = [("hi", "creative")]
    ∧ textFailureToasts (generateTextEvents
        (fun _ _ => GatewayResult.success none) 7
        ⟨"hi", "creative", false, []⟩) = []
    ∧ imageFailureToasts (generateImageEvents
        (fun _ => GatewayResult.success none) 7
        ⟨"hi", true, [], []⟩) = [] := by decide

/-- Claim C5 amended: `generate` surfaces a `Generation failed` toast —
carrying the gateway's message when it is present and non-empty,
otherwise the generic fallback — if and only if the gateway invocation
itself fails; a resolved invocation with no usable payload surfaces no
error at all; in every non-success case (failure or unusable payload)
the collection is not mutated. -/
theorem claim_c5_amended_error_iff_gateway_failure
    (gwT : String → String → GatewayResult) (gwI : String → GatewayResult)
    (now : Int) (sT : TextState) (sI : ImageState)
    (hT : jsTrim sT.prompt ≠ "") (hI : jsTrim sI.prompt ≠ "") :
    ((textFailureToasts (generateTextEvents gwT now sT) ≠ []
        ↔ ∃ m, gwT sT.prompt sT.type = .failure m)
      ∧ (∀ m, gwT sT.prompt sT.type = .failure m →
          textFailureToasts (generateTextEvents gwT now sT) =
            [messageOr m textFallbackMessage]
          ∧ (generateText gwT now sT).texts = sT.texts)
      ∧ (∀ p, gwT sT.prompt sT.type = .success p → usablePayload p = false →
          textFailureToasts (generateTextEvents gwT now sT) = []
          ∧ (generateText gwT now sT).texts = sT.texts))
    ∧ ((imageFailureToasts (generateImageEvents gwI now sI) ≠ []
        ↔ ∃ m, gwI sI.prompt = .failure m)
      ∧ (∀ m, gwI sI.prompt = .failure m →
          imageFailureToasts (generateImageEvents gwI now sI) =
            [messageOr m imageFallbackMessage]
          ∧ (generateImage gwI now sI).images = sI.images)
      ∧ (∀ p, gwI sI.prompt = .success p → usablePayload p = false →
          imageFailureToasts (generateImageEvents gwI now sI) = []
          ∧ (generateImage gwI now sI).images = sI.images)) := by
  constructor
  · refine ⟨?_, fun m hm => ?_, fun p hp hup => ?_⟩
    · rw [textFailureToasts_generate gwT now sT hT]
      rcases hgw : gwT sT.prompt sT.type with m | p <;> simp [hgw]
    · exact ⟨by rw [textFailureToasts_generate gwT now sT hT, hm],
        by rw [generateText_failure gwT now sT m hT hm]⟩
    · exact ⟨by rw [textFailureToasts_generate gwT now sT hT, hp],
        by rw [generateText_unusable gwT now sT p hT hp hup]⟩
  · refine ⟨?_, fun m hm => ?_, fun p hp hup => ?_⟩
    · rw [imageFailureToasts_generate gwI now sI hI]
      rcases hgw : gwI sI.prompt with m | p <;> simp [hgw]
    · exact ⟨by rw [imageFailureToasts_generate gwI now sI hI, hm],
        by rw [generateImage_failure gwI now sI m hI hm]⟩
    · exact ⟨by rw [imageFailureToasts_generate gwI now sI hI, hp],
        by rw [generateImage_unusable gwI now sI p hI hp hup]⟩

/-- Witness for the amended C5: a failing gateway call with an empty
message surfaces exactly the fallback message and leaves the collection
alone. -/
theorem claim_c5_amended_witness :
    textFailureToasts (generateTextEvents
      (fun _ _ => GatewayResult.failure (some "")) 7
      ⟨"hi", "creative", false, []⟩) = [textFallbackMessage]
    ∧ (generateText (fun _ _ => GatewayResult.failure (some "")) 7
        ⟨"hi", "creative", false, []⟩).texts = [] :=
  have h := claim_c5_amended_error_iff_gateway_failure
    (fun _ _ => GatewayResult.failure (some ""))
    (fun _ => GatewayResult.failure (some "")) 7
    ⟨"hi", "creative", false, []⟩ ⟨"hi", false, [], []⟩ (by decide) (by decide)
  have h2 := h.1.2.1 (some "") rfl
  ⟨by rw [h2.1]; decide, h2.2⟩

/-- Claim C6 (code bug): `regenerateText` / `regenerateImage` call the
state setters with the stored artifact's prompt (and type) and then call
`generateText()` / `generateImage()`, but React setters do not update the
current render's closure, so the generate call reads the pre-regenerate
input instead of the artifact's stored prompt.  At the failing input —
the prompt input state is `""`, as it is right after any successful
generation cleared it — regenerating the stored
"Write a short story"/"creative" artifact issues zero gateway calls and
surfaces the `Prompt required` validation toast; and with a different
non-empty input, the single call carries that stale input, not the
artifact's stored prompt and type.  The image side fails the same way. -/
theorem claim_c6_regenerate_reads_stale_closure :
    (textCalls (regenerateTextEvents
        (fun _ _ => GatewayResult.success (some "story")) 9
        ⟨"8", "old story", "Write a short story", "creative", 8⟩
        ⟨"", "casual", false,
          [⟨"8", "old story", "Write a short story", "creative", 8⟩]⟩) = []
      ∧ textHasValidationToast (regenerateTextEvents
          (fun _ _ => GatewayResult.success (some "story")) 9
          ⟨"8", "old story", "Write a short story", "creative", 8⟩
          ⟨"", "casual", false,
            [⟨"8", "old story", "Write a short story", "creative", 8⟩]⟩) = true)
    ∧ (textCalls (regenerateTextEvents
        (fun _ _ => GatewayResult.success (some "story")) 9
        ⟨"8", "old story", "Write a short story", "creative", 8⟩
        ⟨"A different prompt", "casual", false,
          [⟨"8", "old story", "Write a short story", "creative", 8⟩]⟩)
          = [("A different prompt", "casual")]
      ∧ ("A different prompt", "casual") ≠ ("Write a short story", "creative"))
    ∧ (imageCalls (regenerateImageEvents
        (fun _ => GatewayResult.success (some "https://x/1.png")) 9
        ⟨"8", "https://x/0.png", "A castle", 8⟩
        ⟨"", false, [⟨"8", "https://x/0.png", "A castle", 8⟩], []⟩) = []
      ∧ imageHasValidationToast (regenerateImageEvents
          (fun _ => GatewayResult.success (some "https://x/1.png")) 9
          ⟨"8", "https://x/0.png", "A castle", 8⟩
          ⟨"", false, [⟨"8", "https://x/0.png", "A castle", 8⟩], []⟩) = true) := by
  decide

/-- Claim C7 counterexample: the prompt given in the claim's own scenario,
"A: B? C!", sanitizes to "a--b--c-" — each non-alphanumeric character
becomes its own separator and the trailing separator stays — not to the
claimed "a-b-c" (which a run-collapsing rule would produce). -/
theorem claim_c7_counterexample :
    sanitizedPrompt "A: B? C!" = "a--b--c-"
    ∧ sanitizedPrompt "A: B? C!" ≠ "a-b-c"
    ∧ specSanitizeCollapsed "A: B? C!" = "a-b-c" := by decide

/-- Claim C7 amended: the export filename segment is computed by
truncating the prompt to 50 characters, replacing each non-alphanumeric
character with its own single separator (runs are not collapsed, leading
and trailing separators remain), and lowercasing; the prompt "A: B? C!"
yields the segment "a--b--c-". -/
theorem claim_c7_amended_per_char_separator :
    (∀ p, sanitizedPrompt p = specSanitizePerChar p)
    ∧ sanitizedPrompt "A: B? C!" = "a--b--c-" := by
  refine ⟨fun p => ?_, by decide⟩
  show String.mk (((p.data.take 50).map
      fun c => if isAsciiAlphanum c then c else '-').map Char.toLower)
    = String.mk ((p.data.take 50).map
      fun c => if isAsciiAlphanum c then c.toLower else '-')
  rw [List.map_map]
  congr 1
  congr 1
  funext c
  simp only [Function.comp_apply]
  by_cases hc : isAsciiAlphanum c = true
  · rw [if_pos hc, if_pos hc]
  · rw [if_neg hc, if_neg hc]
    decide

/-- Claim C8: for every stored value under the collection key — including
data on which `JSON.parse` throws — the load-on-mount effect never throws
to its caller, and an absent or unparseable value leaves the collection
state untouched (empty when starting from the initial empty collection),
exactly as when no prior data exists. -/
theorem claim_c8_corrupt_load_never_throws
    (parse : String → Except Unit JsValue) (stored : Option String)
    (cur : JsValue) :
    (∃ v, loadCollectionEffect parse stored cur = .ok v)
    ∧ loadCollectionEffect parse none cur = .ok cur
    ∧ (∀ s, stored = some s → parse s = .error () →
        loadCollectionEffect parse stored cur = .ok cur) := by
  refine ⟨?_, rfl, fun s hs hp => ?_⟩
  · rcases stored with _ | s
    · exact ⟨cur, rfl⟩
    · rcases hp : parse s with e | j
      · exact ⟨cur, by simp [loadCollectionEffect, hp]⟩
      · exact ⟨j, by simp [loadCollectionEffect, hp]⟩
  · subst hs
    simp [loadCollectionEffect, hp]

/-- Witness for C8: an unparseable stored string leaves the initial empty
collection in place without an error escaping. -/
theorem claim_c8_witness :
    loadCollectionEffect (fun _ => Except.error ()) (some "not json")
      emptyCollection = Except.ok emptyCollection :=
  (claim_c8_corrupt_load_never_throws (fun _ => Except.error ())
    (some "not json") emptyCollection).2.2 "not json" rfl rfl

/-- Claim C9: the confirmed `Clear All` action always leaves the
collection empty and the persisted entry absent (removed outright, not
rewritten as an empty collection — the persist-on-change effect skips
empty collections), regardless of the prior contents, for both
components. -/
theorem claim_c9_clear_empties_and_removes
    (sT : TextPersistState) (sI : ImagePersistState) :
    (clearAllTexts sT).texts = []
    ∧ (clearAllTexts sT).stored = none
    ∧ (clearAllImages sI).images = []
    ∧ (clearAllImages sI).stored = none := by
  refine ⟨rfl, ?_, rfl, ?_⟩ <;>
    simp [clearAllTexts, clearAllImages, persistTexts, persistImages]

theorem deleteTextOp_texts (i : String) (s : TextPersistState) :
    (deleteTextOp i s).texts = s.texts.filter (fun t => t.id ≠ i) := rfl

theorem deleteTextOp_stored (i : String) (s : TextPersistState) :
    (deleteTextOp i s).stored =
      if (s.texts.filter (fun t => t.id ≠ i)).length > 0
      then some (s.texts.filter (fun t => t.id ≠ i)) else s.stored := rfl

/-- Claim C10: deleting the last remaining artifact leaves the persisted
entry untouched — it still holds the pre-removal collection including the
removed artifact, which a later well-formed session-start load restores —
because the persist-on-change effect only writes non-empty collections;
a delete that leaves the collection non-empty rewrites the store with the
filtered collection. -/

theorem claim_c10_delete_last_leaves_stale_store
    (a : GeneratedText) (s : TextPersistState)
    (hs : s.texts = [a]) (hst : s.stored = some [a]) :
    (deleteTextOp a.id s).texts = []
    ∧ (deleteTextOp a.id s).stored = s.stored
    ∧ a ∈ loadTextsWellFormed (deleteTextOp a.id s).stored
    ∧ (∀ i (s2 : TextPersistState), s2.texts.filter (fun t => t.id ≠ i) = [] →
        (deleteTextOp i s2).stored = s2.stored)
    ∧ (∀ i (s2 : TextPersistState), s2.texts.filter (fun t => t.id ≠ i) ≠ [] →
        (deleteTextOp i s2).stored =
          some (s2.texts.filter (fun t => t.id ≠ i))) := by
  have hfilter : s.texts.filter (fun t => t.id ≠ a.id) = [] := by
    rw [hs]; simp
  have hstored : (deleteTextOp a.id s).stored = s.stored := by
    rw [deleteTextOp_stored, hfilter]
    simp
  refine ⟨?_, hstored, ?_, fun i s2 h2 => ?_, fun i s2 h2 => ?_⟩
  · rw [deleteTextOp_texts, hfilter]
  · rw [hstored, hst]
    simp [loadTextsWellFormed]
  · rw [deleteTextOp_stored, h2]
    simp
  · rw [deleteTextOp_stored, if_pos (List.length_pos.mpr h2)]

/-- Witness for C10: removing the only artifact leaves the stale persisted
entry containing it. -/
theorem claim_c10_witness :
    (deleteTextOp "1"
      ⟨[⟨"1", "c", "p", "creative", 1⟩], some [⟨"1", "c", "p", "creative", 1⟩]⟩).stored
      = some [⟨"1", "c", "p", "creative", 1⟩] :=
  (claim_c10_delete_last_leaves_stale_store ⟨"1", "c", "p", "creative", 1⟩
    ⟨[⟨"1", "c", "p", "creative", 1⟩], some [⟨"1", "c", "p", "creative", 1⟩]⟩
    rfl rfl).2.1
